import Mathlib

/-!
Shallow embedding of `src/i2c_slave.c` (STM32 I2C slave, register-file
responder).  The C file is a set of interrupt callbacks over static state
(`slaveMode`, `rxBuff`/`rxBuffDataSize`, `txBuff`/`txBuffDataSize`,
`requestedReg`, `fakeVoltage`).  Each callback is embedded as a pure
function `SlaveState → SlaveState × List Cmd`, where `Cmd` records the
HAL calls the callback issues (`HAL_I2C_Slave_Seq_Receive_IT`,
`HAL_I2C_Slave_Seq_Transmit_IT`, `HAL_I2C_EnableListen_IT`).

Machine integers are modelled as `Nat` with explicit truncation where the
C types truncate: a store into a `uint8_t` buffer cell is `% 256`, the
`uint8_t` counter increment is `% 256`, and the store into the `uint16_t`
`fakeVoltage` is `% 65536`.  The receive buffer is modelled as a total
function `Nat → Nat` so that the out-of-bounds writes the C program can
perform (its capacity check is commented out) are expressible: indices
`≥ BUFFER_SIZE` stand for the memory past the end of the 5-byte array,
and the `memset(rxBuff, 0, BUFFER_SIZE)` at transaction end clears only
indices `< BUFFER_SIZE`.
-/

namespace I2CSlave

/-- enum SLAVE_MODE_T from the C file; the first enumerator
(`MODE_RECEIVING`) has value 0 and is the static zero-initialised value. -/
inductive SlaveMode where
  | MODE_RECEIVING
  | MODE_TRANSMITTING
  | MODE_LISTENING
deriving DecidableEq, Repr

/-- transfer direction reported by the HAL to the address-match callback:
`I2C_DIRECTION_RECEIVE` means the controller will read (the slave
transmits), `I2C_DIRECTION_TRANSMIT` means the controller will write. -/
inductive Direction where
  | I2C_DIRECTION_TRANSMIT
  | I2C_DIRECTION_RECEIVE
deriving DecidableEq, Repr

/-- sequential-frame marker passed to the HAL transfer calls. -/
inductive Frame where
  | I2C_NEXT_FRAME
  | I2C_LAST_FRAME
deriving DecidableEq, Repr

/-- a HAL call issued by a callback.  `seqReceive off cnt f` records
`HAL_I2C_Slave_Seq_Receive_IT(hi2c, rxBuff + off, cnt, f)`;
`seqTransmit bytes f` records `HAL_I2C_Slave_Seq_Transmit_IT` of the
given bytes (the first `txBuffDataSize` cells of `txBuff` at call time);
`enableListen` records `HAL_I2C_EnableListen_IT`. -/
inductive Cmd where
  | seqReceive (off cnt : Nat) (f : Frame)
  | seqTransmit (bytes : List Nat) (f : Frame)
  | enableListen
deriving DecidableEq, Repr

def BUFFER_SIZE : Nat := 5

def GET_VOLTAGE_REG : Nat := 0x08

def SET_VOLTAGE_REG : Nat := 0x09

/-- the static state of the C translation unit. -/
structure SlaveState where
  slaveMode : SlaveMode
  rxBuff : Nat → Nat
  rxBuffDataSize : Nat
  txBuff : Nat → Nat
  txBuffDataSize : Nat
  requestedReg : Nat
  fakeVoltage : Nat

/-- static-storage initialisation of the C translation unit: buffers and
counters zero, `slaveMode` is enumerator 0 (`MODE_RECEIVING`). -/
def resetState : SlaveState :=
  { slaveMode := SlaveMode.MODE_RECEIVING
    rxBuff := fun _ => 0
    rxBuffDataSize := 0
    txBuff := fun _ => 0
    txBuffDataSize := 0
    requestedReg := 0
    fakeVoltage := 0 }

/-- I2C_SLAVE_Init: enables listen interrupts and sets
`requestedReg = 0`, `fakeVoltage = 3542`, `slaveMode = MODE_LISTENING`. -/
def I2C_SLAVE_Init (s : SlaveState) : SlaveState × List Cmd :=
  ({ s with
      requestedReg := 0
      fakeVoltage := 3542
      slaveMode := SlaveMode.MODE_LISTENING },
   [Cmd.enableListen])

/-- state right after `I2C_SLAVE_Init` has run on the freshly loaded
program. -/
def initState : SlaveState := (I2C_SLAVE_Init resetState).1

/-- HAL_I2C_AddrCallback.  Controller-read direction: set mode
`MODE_TRANSMITTING`, fill `txBuff` from the `switch (requestedReg)`
(GET_VOLTAGE_REG returns `fakeVoltage` MSB first, default returns
`0xFF 0xFF`), set `txBuffDataSize = 2`, issue the sequential transmit of
`txBuffDataSize` bytes as `I2C_LAST_FRAME`, then clear `requestedReg`.
Controller-write direction: set mode `MODE_RECEIVING` and arm a 1-byte
sequential receive at `rxBuff + rxBuffDataSize`, `I2C_NEXT_FRAME`. -/
def HAL_I2C_AddrCallback (s : SlaveState) (TransferDirection : Direction) :
    SlaveState × List Cmd :=
  match TransferDirection with
  | Direction.I2C_DIRECTION_RECEIVE =>
      let s1 : SlaveState := { s with slaveMode := SlaveMode.MODE_TRANSMITTING }
      let s2 : SlaveState :=
        if s1.requestedReg = GET_VOLTAGE_REG then
          { s1 with
              txBuff := fun i =>
                if i = 0 then (s1.fakeVoltage >>> 8) % 256
                else if i = 1 then s1.fakeVoltage &&& 0xFF
                else s1.txBuff i
              txBuffDataSize := 2 }
        else
          { s1 with
              txBuff := fun i =>
                if i = 0 then 0xFF
                else if i = 1 then 0xFF
                else s1.txBuff i
              txBuffDataSize := 2 }
      ({ s2 with requestedReg := 0 },
       [Cmd.seqTransmit ((List.range s2.txBuffDataSize).map s2.txBuff)
          Frame.I2C_LAST_FRAME])
  | Direction.I2C_DIRECTION_TRANSMIT =>
      let s1 : SlaveState := { s with slaveMode := SlaveMode.MODE_RECEIVING }
      (s1, [Cmd.seqReceive s1.rxBuffDataSize 1 Frame.I2C_NEXT_FRAME])

/-- HAL_I2C_ListenCpltCallback (STOP condition): set mode
`MODE_LISTENING`; if exactly one byte was received it is the requested
register; if more than one, the first byte is the requested register and
`fakeVoltage` is set to `rxBuff[1] << 8 | rxBuff[2] & 0xFF` (truncated to
`uint16_t`); then `memset(rxBuff, 0, BUFFER_SIZE)`, zero the count, and
re-enable listening. -/
def HAL_I2C_ListenCpltCallback (s : SlaveState) : SlaveState × List Cmd :=
  let s1 : SlaveState := { s with slaveMode := SlaveMode.MODE_LISTENING }
  let s2 : SlaveState :=
    if s1.rxBuffDataSize = 1 then
      { s1 with requestedReg := s1.rxBuff 0 }
    else if s1.rxBuffDataSize > 1 then
      { s1 with
          requestedReg := s1.rxBuff 0
          fakeVoltage := ((s1.rxBuff 1 <<< 8) ||| (s1.rxBuff 2 &&& 0xFF)) % 65536 }
    else s1
  ({ s2 with
      rxBuff := fun i => if i < BUFFER_SIZE then 0 else s2.rxBuff i
      rxBuffDataSize := 0 },
   [Cmd.enableListen])

/-- the HAL writing the armed 1-byte reception into the buffer: the byte
lands (truncated to `uint8_t`) at the cell the last `seqReceive` pointed
to, namely `rxBuff + rxBuffDataSize`. -/
def deliverByte (b : Nat) (s : SlaveState) : SlaveState :=
  { s with rxBuff := fun i => if i = s.rxBuffDataSize then b % 256 else s.rxBuff i }

/-- HAL_I2C_SlaveRxCpltCallback: increment `rxBuffDataSize` (a `uint8_t`)
unconditionally — the capacity check is commented out in the source —
then, if still `MODE_RECEIVING`, re-arm a 1-byte sequential receive at
`rxBuff + rxBuffDataSize`. -/
def HAL_I2C_SlaveRxCpltCallback (s : SlaveState) : SlaveState × List Cmd :=
  let s1 : SlaveState := { s with rxBuffDataSize := (s.rxBuffDataSize + 1) % 256 }
  (s1,
   if s1.slaveMode = SlaveMode.MODE_RECEIVING then
     [Cmd.seqReceive s1.rxBuffDataSize 1 Frame.I2C_NEXT_FRAME]
   else [])

/-- HAL_I2C_SlaveTxCpltCallback: clear the outbound fill count. -/
def HAL_I2C_SlaveTxCpltCallback (s : SlaveState) : SlaveState × List Cmd :=
  ({ s with txBuffDataSize := 0 }, [])

/-- HAL_I2C_ErrorCallback: only re-enables listening; no state change. -/
def HAL_I2C_ErrorCallback (s : SlaveState) : SlaveState × List Cmd :=
  (s, [Cmd.enableListen])

/-- bus events delivered to the slave.  `rx b` is the arrival of byte `b`
followed by the receive-complete interrupt. -/
inductive Event where
  | addr (d : Direction)
  | rx (b : Nat)
  | txCplt
  | listenCplt
  | error
deriving DecidableEq, Repr

/-- one event step: the byte delivery (for `rx`) followed by the C
callback the HAL invokes for the event. -/
def step (s : SlaveState) (e : Event) : SlaveState × List Cmd :=
  match e with
  | Event.addr d => HAL_I2C_AddrCallback s d
  | Event.rx b => HAL_I2C_SlaveRxCpltCallback (deliverByte b s)
  | Event.txCplt => HAL_I2C_SlaveTxCpltCallback s
  | Event.listenCplt => HAL_I2C_ListenCpltCallback s
  | Event.error => HAL_I2C_ErrorCallback s

/-- run a list of bus events from a state, discarding the issued HAL
commands. -/
def runEvents (s : SlaveState) (es : List Event) : SlaveState :=
  es.foldl (fun t e => (step t e).1) s

/-- Register Dispatcher, build-response side, as the spec isolates it:
the bytes the `switch (requestedReg)` of `HAL_I2C_AddrCallback` loads
into `txBuff` as a function of the register id and the device value. -/
def buildResponse (reg voltage : Nat) : List Nat :=
  if reg = GET_VOLTAGE_REG then [(voltage >>> 8) % 256, voltage &&& 0xFF]
  else [0xFF, 0xFF]

end I2CSlave

namespace I2CSlave

/-- inbound-buffer well-formedness: every cell at or past the fill count
(within the array) still holds the 0 written by the last reset, and every
cell holds a byte value. -/
def RxBuffInv (s : SlaveState) : Prop :=
  (∀ i, s.rxBuffDataSize ≤ i → i < BUFFER_SIZE → s.rxBuff i = 0) ∧
  (∀ i, s.rxBuff i < 256)

/-- states reachable from `initState` by bus events, restricted to runs
in which every byte arrives while the fill count is still below the
array capacity (once a byte lands past the array the C program's
behaviour is undefined). -/
inductive ReachOk : SlaveState → Prop where
  | init : ReachOk initState
  | addr (s : SlaveState) (d : Direction) : ReachOk s → ReachOk (step s (Event.addr d)).1
  | rx (s : SlaveState) (b : Nat) : ReachOk s → s.rxBuffDataSize < BUFFER_SIZE →
      ReachOk (step s (Event.rx b)).1
  | txCplt (s : SlaveState) : ReachOk s → ReachOk (step s Event.txCplt).1
  | listenCplt (s : SlaveState) : ReachOk s → ReachOk (step s Event.listenCplt).1
  | error (s : SlaveState) : ReachOk s → ReachOk (step s Event.error).1

theorem and_255 (x : Nat) : x &&& 0xFF = x % 256 := by
  have h := Nat.and_pow_two_sub_one_eq_mod x 8
  norm_num at h
  exact h

theorem shr8 (x : Nat) : x >>> 8 = x / 256 := by
  have h := Nat.shiftRight_eq_div_pow x 8
  norm_num at h
  exact h

/-- the C expression `(b1 << 8 | b2 & 0xFF)` stored into the `uint16_t`
device value equals the big-endian decoding `b1 * 256 + b2` whenever
`b1` and `b2` are bytes. -/
theorem voltage_expr_eq (d1 d2 : Nat) (h1 : d1 < 256) (h2 : d2 < 256) :
    ((d1 <<< 8) ||| (d2 &&& 0xFF)) % 65536 = d1 * 256 + d2 := by
  have e1 : d1 <<< 8 = 2 ^ 8 * d1 := by rw [Nat.shiftLeft_eq]; ring
  have e2 : d2 &&& 0xFF = d2 % 256 := and_255 d2
  have e3 : d2 % 256 = d2 := Nat.mod_eq_of_lt h2
  have e4 : 2 ^ 8 * d1 + d2 = 2 ^ 8 * d1 ||| d2 :=
    Nat.mul_add_lt_is_or (by norm_num [h2]) d1
  rw [e1, e2, e3, ← e4]
  have hlt : 2 ^ 8 * d1 + d2 < 65536 := by norm_num; omega
  rw [Nat.mod_eq_of_lt hlt]
  ring

/-- an address-match event leaves the inbound buffer and its fill count
untouched. -/
theorem addr_rx_fields (s : SlaveState) (d : Direction) :
    (step s (Event.addr d)).1.rxBuff = s.rxBuff ∧
    (step s (Event.addr d)).1.rxBuffDataSize = s.rxBuffDataSize := by
  cases d <;> simp [step, HAL_I2C_AddrCallback]
  split <;> simp

/-- the stop-condition callback resets the inbound buffer: cells inside
the array are zeroed, cells past it are untouched, and the count is 0. -/
theorem listenCplt_rx_fields (s : SlaveState) :
    (step s Event.listenCplt).1.rxBuff
        = (fun i => if i < BUFFER_SIZE then 0 else s.rxBuff i) ∧
    (step s Event.listenCplt).1.rxBuffDataSize = 0 := by
  simp [step, HAL_I2C_ListenCpltCallback]
  split_ifs <;> rfl

/-- a byte arrival writes the (truncated) byte at the current fill count
and increments the count as a `uint8_t`. -/
theorem rx_rx_fields (s : SlaveState) (b : Nat) :
    (step s (Event.rx b)).1.rxBuff
        = (fun i => if i = s.rxBuffDataSize then b % 256 else s.rxBuff i) ∧
    (step s (Event.rx b)).1.rxBuffDataSize = (s.rxBuffDataSize + 1) % 256 := by
  simp [step, HAL_I2C_SlaveRxCpltCallback, deliverByte]

/-- every overflow-free reachable state satisfies `RxBuffInv`. -/
theorem reachOk_rxBuffInv {s : SlaveState} (h : ReachOk s) : RxBuffInv s := by
  induction h with
  | init =>
      exact ⟨fun i _ _ => rfl, fun i => by simp [initState, resetState, I2C_SLAVE_Init]⟩
  | addr s d hs ih =>
      obtain ⟨f1, f2⟩ := addr_rx_fields s d
      exact ⟨fun i hi hlt => by rw [f1]; exact ih.1 i (f2 ▸ hi) hlt,
             fun i => by rw [f1]; exact ih.2 i⟩
  | rx s b hs hlt ih =>
      obtain ⟨f1, f2⟩ := rx_rx_fields s b
      have hwrap : (s.rxBuffDataSize + 1) % 256 = s.rxBuffDataSize + 1 := by
        have hb : s.rxBuffDataSize < BUFFER_SIZE := hlt
        simp [BUFFER_SIZE] at hb
        omega
      constructor
      · intro i hi hlt2
        rw [f1]
        rw [f2, hwrap] at hi
        have hne : i ≠ s.rxBuffDataSize := by omega
        simp [hne]
        exact ih.1 i (by omega) hlt2
      · intro i
        rw [f1]
        by_cases hne : i = s.rxBuffDataSize
        · simp [hne]; omega
        · simp [hne]; exact ih.2 i
  | txCplt s hs ih =>
      exact ⟨fun i hi hlt => ih.1 i hi hlt, fun i => ih.2 i⟩
  | listenCplt s hs ih =>
      obtain ⟨f1, f2⟩ := listenCplt_rx_fields s
      constructor
      · intro i hi hlt
        rw [f1]
        simp [hlt]
      · intro i
        rw [f1]
        by_cases hc : i < BUFFER_SIZE
        · simp [hc]
        · simp [hc]; exact ih.2 i
  | error s hs ih =>
      exact ⟨fun i hi hlt => ih.1 i hi hlt, fun i => ih.2 i⟩

/-- effect of the stop-condition callback on a write transaction of two
or more bytes: the device value becomes the big-endian decoding of the
second and third buffer cells and the requested register becomes the
first cell, whatever register id it holds. -/
theorem listenCplt_payload (s : SlaveState) (h2 : 2 ≤ s.rxBuffDataSize)
    (hb1 : s.rxBuff 1 < 256) (hb2 : s.rxBuff 2 < 256) :
    (HAL_I2C_ListenCpltCallback s).1.fakeVoltage = s.rxBuff 1 * 256 + s.rxBuff 2 ∧
    (HAL_I2C_ListenCpltCallback s).1.requestedReg = s.rxBuff 0 := by
  have hne : s.rxBuffDataSize ≠ 1 := by omega
  have hgt : s.rxBuffDataSize > 1 := by omega
  simp [HAL_I2C_ListenCpltCallback, hne, hgt, voltage_expr_eq _ _ hb1 hb2]

/-- a SET(hi,lo) write transaction followed by a GET(0x08) transaction
yields a final-frame transmit of exactly the bytes [hi, lo]. -/
theorem set_get_run (hi lo : Nat) (hhi : hi < 256) (hlo : lo < 256) :
    (step (runEvents initState
        [Event.addr Direction.I2C_DIRECTION_TRANSMIT, Event.rx SET_VOLTAGE_REG,
         Event.rx hi, Event.rx lo, Event.listenCplt,
         Event.addr Direction.I2C_DIRECTION_TRANSMIT, Event.rx GET_VOLTAGE_REG,
         Event.listenCplt])
       (Event.addr Direction.I2C_DIRECTION_RECEIVE)).2
      = [Cmd.seqTransmit [hi, lo] Frame.I2C_LAST_FRAME] := by
  simp [runEvents, step, HAL_I2C_AddrCallback, HAL_I2C_ListenCpltCallback,
        HAL_I2C_SlaveRxCpltCallback, deliverByte, initState, resetState,
        I2C_SLAVE_Init, BUFFER_SIZE, GET_VOLTAGE_REG, SET_VOLTAGE_REG,
        Nat.mod_eq_of_lt hhi, Nat.mod_eq_of_lt hlo, List.range,
        List.range.loop]
  rw [voltage_expr_eq hi lo hhi hlo, shr8, and_255]
  constructor <;> omega

end I2CSlave

namespace I2CSlave

/-- C1: the spec requires that receiving a byte when the inbound buffer
already holds `BUFFER_SIZE` (5) bytes is rejected.  The code violates
this (its capacity check is commented out): starting from `initState`,
after a controller-write address match and five received bytes the fill
count is already at capacity and the fifth receive-complete still
re-arms a one-byte reception at offset 5 — past the array — and a sixth
byte pushes the fill count to 6 and is stored at index 5, outside the
buffer bounds. -/
theorem c1_rx_overflow_defect :
    (runEvents initState [Event.addr Direction.I2C_DIRECTION_TRANSMIT,
        Event.rx 1, Event.rx 2, Event.rx 3, Event.rx 4, Event.rx 5]).rxBuffDataSize
      = BUFFER_SIZE ∧
    (step (runEvents initState [Event.addr Direction.I2C_DIRECTION_TRANSMIT,
        Event.rx 1, Event.rx 2, Event.rx 3, Event.rx 4]) (Event.rx 5)).2
      = [Cmd.seqReceive BUFFER_SIZE 1 Frame.I2C_NEXT_FRAME] ∧
    (runEvents initState [Event.addr Direction.I2C_DIRECTION_TRANSMIT,
        Event.rx 1, Event.rx 2, Event.rx 3, Event.rx 4, Event.rx 5, Event.rx 6]).rxBuffDataSize
      = 6 ∧
    (runEvents initState [Event.addr Direction.I2C_DIRECTION_TRANSMIT,
        Event.rx 1, Event.rx 2, Event.rx 3, Event.rx 4, Event.rx 5, Event.rx 6]).rxBuff
        BUFFER_SIZE
      = 6 := by decide

/-- C2: for every 16-bit value `v`, a complete SET transaction carrying
[0x09, v >> 8, v &&& 0xFF] followed by a complete GET transaction of
register 0x08 makes the slave transmit exactly the two bytes
[v >> 8, v &&& 0xFF] (v encoded MSB first) as the final frame. -/
theorem c2_set_get_roundtrip (v : Nat) (hv : v < 65536) :
    (step (runEvents initState
        [Event.addr Direction.I2C_DIRECTION_TRANSMIT, Event.rx SET_VOLTAGE_REG,
         Event.rx (v >>> 8), Event.rx (v &&& 0xFF), Event.listenCplt,
         Event.addr Direction.I2C_DIRECTION_TRANSMIT, Event.rx GET_VOLTAGE_REG,
         Event.listenCplt])
       (Event.addr Direction.I2C_DIRECTION_RECEIVE)).2
      = [Cmd.seqTransmit [v >>> 8, v &&& 0xFF] Frame.I2C_LAST_FRAME] := by
  have hhi : v >>> 8 < 256 := by rw [shr8]; omega
  have hlo : v &&& 0xFF < 256 := by rw [and_255]; omega
  exact set_get_run (v >>> 8) (v &&& 0xFF) hhi hlo

/-- C2 witness: the roundtrip at v = 1000 returns [0x03, 0xE8]. -/
theorem c2_set_get_roundtrip_witness :
    (step (runEvents initState
        [Event.addr Direction.I2C_DIRECTION_TRANSMIT, Event.rx SET_VOLTAGE_REG,
         Event.rx (1000 >>> 8), Event.rx (1000 &&& 0xFF), Event.listenCplt,
         Event.addr Direction.I2C_DIRECTION_TRANSMIT, Event.rx GET_VOLTAGE_REG,
         Event.listenCplt])
       (Event.addr Direction.I2C_DIRECTION_RECEIVE)).2
      = [Cmd.seqTransmit [3, 232] Frame.I2C_LAST_FRAME] :=
  (c2_set_get_roundtrip 1000 (by norm_num)).trans (by decide)

/-- C3 counterexample: a transaction that ends with an Error event does
not return the machine to `MODE_LISTENING` and does not zero the inbound
fill count — the error callback only re-enables listening.  Concretely,
after a controller-write address match and one received byte, an Error
event leaves the mode at `MODE_RECEIVING` with one byte still counted. -/
theorem c3_error_no_reset_counterexample :
    (runEvents initState [Event.addr Direction.I2C_DIRECTION_TRANSMIT,
        Event.rx 9, Event.error]).slaveMode ≠ SlaveMode.MODE_LISTENING ∧
    (runEvents initState [Event.addr Direction.I2C_DIRECTION_TRANSMIT,
        Event.rx 9, Event.error]).rxBuffDataSize ≠ 0 := by decide

/-- C3 amended: a transaction ending with ListenComplete leaves the mode
Listening and the inbound fill count zero, while the outbound fill count
is untouched there — it is cleared by the transmit-complete callback;
an Error event only re-arms listening and changes no state at all. -/
theorem c3_transaction_end_reset (s : SlaveState) :
    (HAL_I2C_ListenCpltCallback s).1.slaveMode = SlaveMode.MODE_LISTENING ∧
    (HAL_I2C_ListenCpltCallback s).1.rxBuffDataSize = 0 ∧
    (HAL_I2C_ListenCpltCallback s).1.txBuffDataSize = s.txBuffDataSize ∧
    (HAL_I2C_SlaveTxCpltCallback s).1.txBuffDataSize = 0 ∧
    (HAL_I2C_ErrorCallback s).1 = s ∧
    (HAL_I2C_ErrorCallback s).2 = [Cmd.enableListen] := by
  refine ⟨?_, ?_, ?_, rfl, rfl, rfl⟩ <;>
    simp [HAL_I2C_ListenCpltCallback] <;> split_ifs <;> rfl

end I2CSlave

namespace I2CSlave

/-- C4 counterexample: a completed write transaction that accumulated
zero bytes does not set `RequestedRegister` at all, so it is not a
register-select.  Concretely: a one-byte write transaction selects
register 5; a following write transaction with zero bytes (address
match, immediate stop) completes with `RequestedRegister` still 5 — not
the value 0 found in the (empty, previously cleared) inbound buffer. -/
theorem c4_zero_byte_counterexample :
    (runEvents initState [Event.addr Direction.I2C_DIRECTION_TRANSMIT, Event.rx 5,
        Event.listenCplt, Event.addr Direction.I2C_DIRECTION_TRANSMIT]).rxBuffDataSize
      = 0 ∧
    (runEvents initState [Event.addr Direction.I2C_DIRECTION_TRANSMIT, Event.rx 5,
        Event.listenCplt, Event.addr Direction.I2C_DIRECTION_TRANSMIT]).rxBuff 0
      = 0 ∧
    (runEvents initState [Event.addr Direction.I2C_DIRECTION_TRANSMIT, Event.rx 5,
        Event.listenCplt, Event.addr Direction.I2C_DIRECTION_TRANSMIT,
        Event.listenCplt]).requestedReg
      = 5 ∧
    (runEvents initState [Event.addr Direction.I2C_DIRECTION_TRANSMIT, Event.rx 5,
        Event.listenCplt, Event.addr Direction.I2C_DIRECTION_TRANSMIT,
        Event.listenCplt]).requestedReg
      ≠ (runEvents initState [Event.addr Direction.I2C_DIRECTION_TRANSMIT, Event.rx 5,
          Event.listenCplt, Event.addr Direction.I2C_DIRECTION_TRANSMIT]).rxBuff 0 := by
  decide

/-- C4 amended: on ListenComplete a write transaction with exactly one
byte is a pure register-select (`RequestedRegister` becomes that byte,
the device value is unchanged); with zero bytes the register file is
left entirely unchanged (nothing is selected); with two or more bytes it
is a register-select plus payload (`RequestedRegister` becomes the first
byte and the device value the big-endian payload of cells 1 and 2). -/
theorem c4_apply_write_cases (s : SlaveState)
    (hb1 : s.rxBuff 1 < 256) (hb2 : s.rxBuff 2 < 256) :
    (s.rxBuffDataSize = 0 →
       (HAL_I2C_ListenCpltCallback s).1.requestedReg = s.requestedReg ∧
       (HAL_I2C_ListenCpltCallback s).1.fakeVoltage = s.fakeVoltage) ∧
    (s.rxBuffDataSize = 1 →
       (HAL_I2C_ListenCpltCallback s).1.requestedReg = s.rxBuff 0 ∧
       (HAL_I2C_ListenCpltCallback s).1.fakeVoltage = s.fakeVoltage) ∧
    (1 < s.rxBuffDataSize →
       (HAL_I2C_ListenCpltCallback s).1.requestedReg = s.rxBuff 0 ∧
       (HAL_I2C_ListenCpltCallback s).1.fakeVoltage
           = s.rxBuff 1 * 256 + s.rxBuff 2) := by
  refine ⟨fun h0 => ?_, fun h1 => ?_, fun hgt => ?_⟩
  · simp [HAL_I2C_ListenCpltCallback, h0]
  · simp [HAL_I2C_ListenCpltCallback, h1]
  · obtain ⟨e1, e2⟩ := listenCplt_payload s (by omega) hb1 hb2
    exact ⟨e2, e1⟩

/-- C4 witness: on `initState` (zero accumulated bytes) ListenComplete
leaves the register file unchanged: requested register 0, device value
3542. -/
theorem c4_apply_write_cases_witness :
    (HAL_I2C_ListenCpltCallback initState).1.requestedReg = 0 ∧
    (HAL_I2C_ListenCpltCallback initState).1.fakeVoltage = 3542 := by
  have h := (c4_apply_write_cases initState (by decide) (by decide)).1 rfl
  exact ⟨by rw [h.1]; decide, by rw [h.2]; decide⟩

/-- C5: on an address match with direction controller-will-read the
handler sets mode Transmitting, loads into the outbound buffer exactly
the 2 response bytes the Register Dispatcher builds from the current
`RequestedRegister`, commands the Bus Port to transmit exactly those
bytes as the final frame, and clears `RequestedRegister` to 0. -/
theorem c5_addr_read_transmit (s : SlaveState) :
    (HAL_I2C_AddrCallback s Direction.I2C_DIRECTION_RECEIVE).1.slaveMode
        = SlaveMode.MODE_TRANSMITTING ∧
    (HAL_I2C_AddrCallback s Direction.I2C_DIRECTION_RECEIVE).1.txBuffDataSize = 2 ∧
    [(HAL_I2C_AddrCallback s Direction.I2C_DIRECTION_RECEIVE).1.txBuff 0,
     (HAL_I2C_AddrCallback s Direction.I2C_DIRECTION_RECEIVE).1.txBuff 1]
        = buildResponse s.requestedReg s.fakeVoltage ∧
    (buildResponse s.requestedReg s.fakeVoltage).length = 2 ∧
    (HAL_I2C_AddrCallback s Direction.I2C_DIRECTION_RECEIVE).2
        = [Cmd.seqTransmit (buildResponse s.requestedReg s.fakeVoltage)
             Frame.I2C_LAST_FRAME] ∧
    (HAL_I2C_AddrCallback s Direction.I2C_DIRECTION_RECEIVE).1.requestedReg = 0 := by
  by_cases h : s.requestedReg = GET_VOLTAGE_REG <;>
    simp [HAL_I2C_AddrCallback, buildResponse, h, List.range_succ]

/-- C6: a completed write transaction with at least 2 bytes whose first
byte is the SET register 0x09 updates the device value to the big-endian
decoding of the transaction's second and third bytes (buffer cells 1 and
2; for a 2-byte transaction cell 2 holds the 0 left by the last reset)
and sets `RequestedRegister` to the first byte, 0x09. -/
theorem c6_set_register_write (s : SlaveState) (h2 : 2 ≤ s.rxBuffDataSize)
    (hreg : s.rxBuff 0 = SET_VOLTAGE_REG)
    (hb1 : s.rxBuff 1 < 256) (hb2 : s.rxBuff 2 < 256) :
    (HAL_I2C_ListenCpltCallback s).1.fakeVoltage = s.rxBuff 1 * 256 + s.rxBuff 2 ∧
    (HAL_I2C_ListenCpltCallback s).1.requestedReg = SET_VOLTAGE_REG := by
  obtain ⟨e1, e2⟩ := listenCplt_payload s h2 hb1 hb2
  exact ⟨e1, by rw [e2, hreg]⟩

/-- C6 witness: after receiving [0x09, 0x03, 0xE8] the stop condition
sets the device value to 1000 and the requested register to 0x09. -/
theorem c6_set_register_write_witness :
    (HAL_I2C_ListenCpltCallback (runEvents initState
        [Event.addr Direction.I2C_DIRECTION_TRANSMIT, Event.rx 9, Event.rx 3,
         Event.rx 232])).1.fakeVoltage = 1000 ∧
    (HAL_I2C_ListenCpltCallback (runEvents initState
        [Event.addr Direction.I2C_DIRECTION_TRANSMIT, Event.rx 9, Event.rx 3,
         Event.rx 232])).1.requestedReg = SET_VOLTAGE_REG := by
  have h := c6_set_register_write (runEvents initState
      [Event.addr Direction.I2C_DIRECTION_TRANSMIT, Event.rx 9, Event.rx 3,
       Event.rx 232]) (by decide) (by decide) (by decide) (by decide)
  exact ⟨by rw [h.1]; decide, h.2⟩

/-- C7: for every state whose `RequestedRegister` differs from the GET
register 0x08, a controller-read address match makes the slave transmit
exactly the sentinel bytes 0xFF 0xFF, whatever the device value is. -/
theorem c7_unknown_register_sentinel (s : SlaveState)
    (h : s.requestedReg ≠ GET_VOLTAGE_REG) :
    (HAL_I2C_AddrCallback s Direction.I2C_DIRECTION_RECEIVE).2
      = [Cmd.seqTransmit [0xFF, 0xFF] Frame.I2C_LAST_FRAME] := by
  simp [HAL_I2C_AddrCallback, h, List.range_succ]

/-- C7 witness: on `initState` the requested register is the sentinel 0,
so a controller-read transmits 0xFF 0xFF. -/
theorem c7_unknown_register_sentinel_witness :
    (HAL_I2C_AddrCallback initState Direction.I2C_DIRECTION_RECEIVE).2
      = [Cmd.seqTransmit [0xFF, 0xFF] Frame.I2C_LAST_FRAME] :=
  c7_unknown_register_sentinel initState (by decide)

/-- C8: a completed write transaction carrying exactly one byte sets
`RequestedRegister` to that byte and leaves the device value unchanged. -/
theorem c8_single_byte_register_select (s : SlaveState)
    (h : s.rxBuffDataSize = 1) :
    (HAL_I2C_ListenCpltCallback s).1.requestedReg = s.rxBuff 0 ∧
    (HAL_I2C_ListenCpltCallback s).1.fakeVoltage = s.fakeVoltage := by
  simp [HAL_I2C_ListenCpltCallback, h]

/-- C8 witness: after a single received byte 7, the stop condition sets
the requested register to 7 and keeps the device value 3542. -/
theorem c8_single_byte_register_select_witness :
    (HAL_I2C_ListenCpltCallback (runEvents initState
        [Event.addr Direction.I2C_DIRECTION_TRANSMIT, Event.rx 7])).1.requestedReg
      = 7 ∧
    (HAL_I2C_ListenCpltCallback (runEvents initState
        [Event.addr Direction.I2C_DIRECTION_TRANSMIT, Event.rx 7])).1.fakeVoltage
      = 3542 := by
  have h := c8_single_byte_register_select (runEvents initState
      [Event.addr Direction.I2C_DIRECTION_TRANSMIT, Event.rx 7]) (by decide)
  exact ⟨by rw [h.1]; decide, by rw [h.2]; decide⟩

/-- C9: after initialisation and with no intervening SET, a GET(0x08)
transaction (write 0x08, stop, controller-read address match) makes the
slave transmit the default device value 3542 as the bytes 0x0D 0xD6. -/
theorem c9_initial_get_default :
    (step (runEvents initState [Event.addr Direction.I2C_DIRECTION_TRANSMIT,
        Event.rx GET_VOLTAGE_REG, Event.listenCplt])
       (Event.addr Direction.I2C_DIRECTION_RECEIVE)).2
      = [Cmd.seqTransmit [0x0D, 0xD6] Frame.I2C_LAST_FRAME] ∧
    initState.fakeVoltage = 3542 := by decide

/-- C10: in every overflow-free reachable state, a completed write
transaction with 2 or more bytes overwrites the device value with the
big-endian decoding of buffer cells 1 and 2 whatever register id the
first byte holds (which becomes `RequestedRegister`), and when exactly 2
bytes were received cell 2 still holds the 0 cleared at the previous
transaction end, so the stored value's low byte is 0. -/
theorem c10_payload_any_register (s : SlaveState) (hs : ReachOk s)
    (h2 : 2 ≤ s.rxBuffDataSize) :
    (HAL_I2C_ListenCpltCallback s).1.fakeVoltage = s.rxBuff 1 * 256 + s.rxBuff 2 ∧
    (HAL_I2C_ListenCpltCallback s).1.requestedReg = s.rxBuff 0 ∧
    (s.rxBuffDataSize = 2 →
       s.rxBuff 2 = 0 ∧ (HAL_I2C_ListenCpltCallback s).1.fakeVoltage % 256 = 0) := by
  obtain ⟨hz, hb⟩ := reachOk_rxBuffInv hs
  obtain ⟨e1, e2⟩ := listenCplt_payload s h2 (hb 1) (hb 2)
  refine ⟨e1, e2, fun hc2 => ?_⟩
  have hz2 : s.rxBuff 2 = 0 := hz 2 (by omega) (by simp [BUFFER_SIZE])
  exact ⟨hz2, by rw [e1, hz2]; omega⟩

/-- C10 witness: a 2-byte write transaction [77, 3] — register id 77 is
not a recognised register — still overwrites the device value, storing
3 * 256 = 768 whose low byte is 0, and sets the requested register to
77. -/
theorem c10_payload_any_register_witness :
    (HAL_I2C_ListenCpltCallback (runEvents initState
        [Event.addr Direction.I2C_DIRECTION_TRANSMIT, Event.rx 77,
         Event.rx 3])).1.fakeVoltage = 768 ∧
    (HAL_I2C_ListenCpltCallback (runEvents initState
        [Event.addr Direction.I2C_DIRECTION_TRANSMIT, Event.rx 77,
         Event.rx 3])).1.requestedReg = 77 ∧
    (HAL_I2C_ListenCpltCallback (runEvents initState
        [Event.addr Direction.I2C_DIRECTION_TRANSMIT, Event.rx 77,
         Event.rx 3])).1.fakeVoltage % 256 = 0 := by
  have hr : ReachOk (runEvents initState
      [Event.addr Direction.I2C_DIRECTION_TRANSMIT, Event.rx 77, Event.rx 3]) :=
    ReachOk.rx _ 3 (ReachOk.rx _ 77
      (ReachOk.addr _ Direction.I2C_DIRECTION_TRANSMIT ReachOk.init)
      (by decide)) (by decide)
  have h := c10_payload_any_register (runEvents initState
      [Event.addr Direction.I2C_DIRECTION_TRANSMIT, Event.rx 77, Event.rx 3])
      hr (by decide)
  exact ⟨by rw [h.1]; decide, by rw [h.2.1]; decide, (h.2.2 (by decide)).2⟩

end I2CSlave
